import Mathlib

/-!
Verification of the recurring task schedule engine of the `oliver` repository
(backend/app/services/template_service.py and backend/app/services/day_service.py)
against its natural-language specification.

Calendar dates are modelled by the `PyDate` structure mirroring Python's
`datetime.date` (proleptic Gregorian calendar); `timedelta(days=n)` addition is
modelled as `n` single-day successor steps, which agrees with Python's ordinal
arithmetic on valid dates.
-/

namespace Oliver

/-- Mirrors Python's leap-year rule used by `calendar.monthrange`:
a year is leap iff divisible by 4 and not by 100, or divisible by 400. -/
def isLeap (y : Nat) : Bool :=
  (y % 4 == 0 && y % 100 != 0) || (y % 400 == 0)

/-- `monthrange(y, m)[1]` from Python's `calendar` module: the number of days
in month `m` of year `y`. -/
def daysInMonth (y m : Nat) : Nat :=
  if m = 2 then (if isLeap y then 29 else 28)
  else if m = 4 ∨ m = 6 ∨ m = 9 ∨ m = 11 then 30
  else 31

/-- A calendar date as in Python's `datetime.date`. -/
structure PyDate where
  year : Nat
  month : Nat
  day : Nat
deriving DecidableEq, Repr

/-- Well-formed month and day fields of a calendar date.  Python's `date`
constructor additionally bounds the year by `MAXYEAR = 9999`; that bound is
NOT part of this predicate — the bounded operations (`addDaysPy`,
`compute_next_run_py`) check it explicitly. -/
def PyDate.Valid (d : PyDate) : Prop :=
  1 ≤ d.year ∧ 1 ≤ d.month ∧ d.month ≤ 12 ∧ 1 ≤ d.day ∧ d.day ≤ daysInMonth d.year d.month

instance (d : PyDate) : Decidable d.Valid := by
  unfold PyDate.Valid; infer_instance

/-- The calendar successor of a date (the next day). -/
def nextDay (d : PyDate) : PyDate :=
  if d.day < daysInMonth d.year d.month then ⟨d.year, d.month, d.day + 1⟩
  else if d.month < 12 then ⟨d.year, d.month + 1, 1⟩
  else ⟨d.year + 1, 1, 1⟩

/-- `n` successor steps on the year-unbounded calendar.  This is the value
`d + timedelta(days = n)` produces whenever it stays at or before
9999-12-31; past that bound Python raises `OverflowError` instead, which
`addDaysPy` models. -/
def addDays (d : PyDate) (n : Nat) : PyDate :=
  Nat.iterate nextDay n d

/-- Lexicographic comparison on (year, month, day): Python's `date.__le__`. -/
def dateLe (a b : PyDate) : Bool :=
  a.year < b.year ||
    (a.year == b.year &&
      (a.month < b.month || (a.month == b.month && a.day ≤ b.day)))

/-- Python's `date.__eq__`. -/
def dateEq (a b : PyDate) : Bool :=
  a.year == b.year && a.month == b.month && a.day == b.day

/-- `compute_next_run(current, recurrence)` from
backend/app/services/template_service.py lines 18-28, verbatim: weekly adds 7
days, bi_weekly adds 14 days, and every other recurrence value falls through to
the monthly rule `date(year, month, min(current.day, max_day))` with
`month = current.month % 12 + 1`, `year = current.year + current.month // 12`,
`max_day = monthrange(year, month)[1]`.  Note the source definition takes
exactly these TWO parameters; it has no anchor-day parameter.  This is the
year-unbounded idealization, exact for every input whose result stays at or
before 9999-12-31; `compute_next_run_py` adds the bounds Python's date type
enforces (`OverflowError` from `timedelta` addition, `ValueError` from the
date constructor past `MAXYEAR`). -/
def compute_next_run (current : PyDate) (recurrence : String) : PyDate :=
  if recurrence = "weekly" then addDays current 7
  else if recurrence = "bi_weekly" then addDays current 14
  else
    let month := current.month % 12 + 1
    let year := current.year + current.month / 12
    let max_day := daysInMonth year month
    ⟨year, month, min current.day max_day⟩

/-- Total days in the months strictly before month `m` of year `y`. -/
def daysBeforeMonth (y : Nat) : Nat → Nat
  | m + 2 => daysBeforeMonth y (m + 1) + daysInMonth y (m + 1)
  | _ => 0

/-- Python's `date.toordinal()`: the rank of the date in the proleptic
Gregorian calendar, with 0001-01-01 having ordinal 1. -/
def toOrdinal (d : PyDate) : Nat :=
  (d.year - 1) * 365 + (d.year - 1) / 4 - (d.year - 1) / 100 + (d.year - 1) / 400
    + daysBeforeMonth d.year d.month + d.day

/-- Python exceptions observable in this subsystem. -/
inductive PyErr where
  | typeError (msg : String)
  | valueError (msg : String)
  | overflowError (msg : String)
deriving DecidableEq, Repr

/-- `datetime.MAXYEAR`: the largest year Python's `date` type represents. -/
def MAXYEAR : Nat := 9999

/-- `_MAXORDINAL` from Python's datetime module: `date(9999, 12, 31).toordinal()`. -/
def maxOrdinal : Nat := 3652059

/-- Python's `date.__add__` with a nonnegative day count: it computes the
target ordinal and raises `OverflowError("result out of range")` when that
ordinal passes `_MAXORDINAL`, the ordinal of 9999-12-31. -/
def addDaysPy (d : PyDate) (n : Nat) : Except PyErr PyDate :=
  if toOrdinal d + n ≤ maxOrdinal then .ok (addDays d n)
  else .error (.overflowError "result out of range")

/-- `compute_next_run` under Python's bounded date type: the same branch
structure as the source, with the weekly and bi_weekly branches performing
`date + timedelta` addition (which raises `OverflowError` past 9999-12-31)
and the monthly branch invoking the `date` constructor, which raises
`ValueError` when the computed year exceeds `MAXYEAR`. -/
def compute_next_run_py (current : PyDate) (recurrence : String) :
    Except PyErr PyDate :=
  if recurrence = "weekly" then addDaysPy current 7
  else if recurrence = "bi_weekly" then addDaysPy current 14
  else
    let month := current.month % 12 + 1
    let year := current.year + current.month / 12
    let max_day := daysInMonth year month
    if year ≤ MAXYEAR then .ok ⟨year, month, min current.day max_day⟩
    else .error (.valueError "year must be in 1..9999")

/-- A row of `task_templates` (backend/app/models/task_template.py): tags are
modelled by their names. -/
structure Template where
  id : Nat
  title : String
  description : Option String
  category : Option String
  tags : List String
deriving DecidableEq, Repr

/-- A row of `template_schedules` (backend/app/models/task_template.py). -/
structure Schedule where
  id : Nat
  template_id : Nat
  recurrence : String
  anchor_date : PyDate
  next_run_date : PyDate
deriving DecidableEq, Repr

/-- A row of `tasks`, restricted to the fields `instantiate` writes. -/
structure Task where
  day_id : Nat
  category : String
  title : String
  description : Option String
  status : String
  order_index : Nat
  tags : List String
deriving DecidableEq, Repr

/-- A `Day` row; `day_off` records whether an associated `DayOff` row exists
(`day.day_off is not None` in day_service.py line 368). -/
structure Day where
  id : Nat
  date : PyDate
  day_off : Bool
deriving DecidableEq, Repr

/-- The database state the schedule engine reads and writes. -/
structure EngineState where
  templates : List Template
  schedules : List Schedule
  tasks : List Task
deriving DecidableEq, Repr

/-- `STATUS_PENDING` from shared/oliver_shared/constants.py line 10. -/
def STATUS_PENDING : String := "pending"

/-- The call expression `compute_next_run(schedule.next_run_date,
schedule.recurrence, schedule.anchor_date.day)` at day_service.py lines
397-399.  The source definition of `compute_next_run`
(template_service.py line 18) has exactly two parameters
`(current, recurrence)` and no third anchor-day parameter, so Python raises
`TypeError` for this three-argument call before the function body runs. -/
def compute_next_run_call3 (_current : PyDate) (_recurrence : String)
    (_anchor_day : Nat) : Except PyErr PyDate :=
  .error (.typeError "compute_next_run takes 2 positional arguments but 3 were given")

/-- The cursor-advance loop at day_service.py lines 396-399:
`while schedule.next_run_date <= target_date: schedule.next_run_date =
compute_next_run(schedule.next_run_date, schedule.recurrence,
schedule.anchor_date.day)`.  Because the three-argument call always raises,
no loop iteration ever completes, so a single unfolding of the `while` loop
is exact: if the guard holds the loop raises, otherwise it exits at once. -/
def advance_cursor (s : Schedule) (target_date : PyDate) : Except PyErr Schedule :=
  if dateLe s.next_run_date target_date then
    match compute_next_run_call3 s.next_run_date s.recurrence s.anchor_date.day with
    | .error e => .error e
    | .ok d => .ok { s with next_run_date := d }
  else .ok s

/-- `TemplateService.instantiate` (template_service.py lines 102-149) acting on
the list of persisted tasks: resolves the category (override if given, else
the template category, raising `ValueError` when both are absent), computes
`order_index` as the count of existing tasks sharing (day, category), copies
the template tags, and appends one new pending task. -/
def instantiate (tasks : List Task) (template : Template) (day_id : Nat)
    (category_override : Option String) : Except PyErr (Task × List Task) :=
  let category : Option String :=
    match category_override with
    | some c => some c
    | none => template.category
  match category with
  | none => .error (.valueError
      "category is required: provide it in the request or set one on the template")
  | some cat =>
    let order_index :=
      (tasks.filter (fun t => t.day_id == day_id && t.category == cat)).length
    let task : Task :=
      { day_id := day_id
        category := cat
        title := template.title
        description := template.description
        status := STATUS_PENDING
        order_index := order_index
        tags := template.tags }
    .ok (task, tasks ++ [task])

/-- `self._db.get(TaskTemplate, schedule.template_id)` at day_service.py
line 382. -/
def find_template (templates : List Template) (tid : Nat) : Option Template :=
  templates.find? (fun t => t.id == tid)

/-- The body of the `for schedule in schedules` loop at day_service.py lines
380-399 for one schedule: instantiate a task when the schedule is due exactly
on the target date, the day is not off, the template exists and has a truthy
category (the guard `if template and template.category` is Python truthiness,
so an empty-string category is skipped like a missing one); then run the
cursor-advance loop. -/
def apply_one (templates : List Template) (day : Day) (target_date : PyDate)
    (is_day_off : Bool) (tasks : List Task) (s : Schedule) :
    Except PyErr (Schedule × List Task) :=
  let step1 : Except PyErr (List Task) :=
    if dateEq s.next_run_date target_date && !is_day_off then
      match find_template templates s.template_id with
      | some t =>
        match t.category with
        | some c =>
          if c.isEmpty then .ok tasks
          else
            match instantiate tasks t day.id none with
            | .ok (_, ts) => .ok ts
            | .error e => .error e
        | none => .ok tasks
      | none => .ok tasks
    else .ok tasks
  match step1 with
  | .error e => .error e
  | .ok ts =>
    match advance_cursor s target_date with
    | .error e => .error e
    | .ok s2 => .ok (s2, ts)

/-- Sequential processing of the due schedules (day_service.py line 380),
threading the task list and propagating the first raised exception. -/
def apply_list (templates : List Template) (day : Day) (target_date : PyDate)
    (is_day_off : Bool) : List Schedule → List Task →
    Except PyErr (List Schedule × List Task)
  | [], ts => .ok ([], ts)
  | s :: rest, ts =>
    match apply_one templates day target_date is_day_off ts s with
    | .error e => .error e
    | .ok (s2, ts2) =>
      match apply_list templates day target_date is_day_off rest ts2 with
      | .error e => .error e
      | .ok (rest2, ts3) => .ok (s2 :: rest2, ts3)

/-- `DayService.apply_due_schedules` (day_service.py lines 360-401): reads the
day-off flag, selects the schedules with `next_run_date <= target_date`,
returns unchanged when none is due, and otherwise processes each due schedule
in turn.  A raised exception aborts the call; on success the updated due
schedules replace their old rows and the new tasks are flushed. -/
def apply_due_schedules (st : EngineState) (day : Day) (target_date : PyDate) :
    Except PyErr EngineState :=
  let is_day_off := day.day_off
  let due := st.schedules.filter (fun s => dateLe s.next_run_date target_date)
  if due.isEmpty then .ok st
  else
    match apply_list st.templates day target_date is_day_off due st.tasks with
    | .error e => .error e
    | .ok (due2, ts2) =>
      .ok { st with
            schedules :=
              due2 ++ st.schedules.filter (fun s => !dateLe s.next_run_date target_date)
            tasks := ts2 }

/-- The state persisted after a request that ran `apply_due_schedules`: on an
exception the request fails before the route handler commits, and the session
closes without commit (database.py `get_db`), rolling back every uncommitted
write, so the stored state is unchanged. -/
def apply_due_run (st : EngineState) (day : Day) (target_date : PyDate) :
    EngineState :=
  match apply_due_schedules st day target_date with
  | .ok st2 => st2
  | .error _ => st

/-- `TemplateService.create_schedule` (template_service.py lines 159-176):
the persisted row, given the id the database assigns. -/
def create_schedule (template_id : Nat) (recurrence : String)
    (anchor_date : PyDate) (new_id : Nat) : Schedule :=
  { id := new_id
    template_id := template_id
    recurrence := recurrence
    anchor_date := anchor_date
    next_run_date := anchor_date }

/-- Calendar month counter: consecutive values are consecutive months. -/
def monthIndex (d : PyDate) : Nat := d.year * 12 + d.month

/-!
Concrete database fixtures used to evaluate `apply_due_schedules` at the
failing inputs of the individual claims.
-/

def tmplYoga : Template := ⟨1, "Yoga", none, some "short_task", []⟩
def schedYoga : Schedule := ⟨1, 1, "weekly", ⟨2026, 3, 2⟩, ⟨2026, 3, 2⟩⟩
def stYoga : EngineState := ⟨[tmplYoga], [schedYoga], []⟩
def dayYoga : Day := ⟨1, ⟨2026, 3, 2⟩, false⟩

def tmplReview : Template := ⟨2, "Review", none, some "deep_work", []⟩
def schedReview : Schedule := ⟨2, 2, "weekly", ⟨2026, 4, 6⟩, ⟨2026, 4, 6⟩⟩
def stReview : EngineState := ⟨[tmplReview], [schedReview], []⟩
def dayReview : Day := ⟨2, ⟨2026, 4, 6⟩, false⟩

def tmplLaundry : Template := ⟨3, "Laundry", none, some "short_task", []⟩
def schedLaundry : Schedule := ⟨3, 3, "weekly", ⟨2026, 3, 16⟩, ⟨2026, 3, 16⟩⟩
def stLaundry : EngineState := ⟨[tmplLaundry], [schedLaundry], []⟩
def dayLaundry : Day := ⟨3, ⟨2026, 4, 6⟩, false⟩

def tmplGym : Template := ⟨4, "Gym", none, some "health", []⟩
def schedGym : Schedule := ⟨4, 4, "weekly", ⟨2026, 5, 4⟩, ⟨2026, 5, 4⟩⟩
def stGym : EngineState := ⟨[tmplGym], [schedGym], []⟩
def dayGymOff : Day := ⟨4, ⟨2026, 5, 4⟩, true⟩

def tmplNoCat : Template := ⟨5, "Stretch", none, none, []⟩
def schedNoCat : Schedule := ⟨5, 5, "weekly", ⟨2026, 6, 1⟩, ⟨2026, 6, 1⟩⟩
def stNoCat : EngineState := ⟨[tmplNoCat], [schedNoCat], []⟩
def dayNoCat : Day := ⟨5, ⟨2026, 6, 1⟩, false⟩

/-- The `TypeError` message raised by the three-argument call. -/
def arityErr : PyErr :=
  .typeError "compute_next_run takes 2 positional arguments but 3 were given"

theorem one_le_daysInMonth (y m : Nat) : 1 ≤ daysInMonth y m := by
  unfold daysInMonth
  split
  · split <;> norm_num
  · split <;> norm_num

theorem daysBeforeMonth_succ (y m : Nat) (h : 1 ≤ m) :
    daysBeforeMonth y (m + 1) = daysBeforeMonth y m + daysInMonth y m := by
  obtain ⟨k, rfl⟩ : ∃ k, m = k + 1 := ⟨m - 1, by omega⟩
  rfl

theorem daysBeforeMonth_twelve (y : Nat) :
    daysBeforeMonth y 12 = 306 + daysInMonth y 2 := by
  simp [daysBeforeMonth, daysInMonth]
  omega

/-- The calendar successor of a valid date is valid. -/
theorem nextDay_valid {d : PyDate} (h : d.Valid) : (nextDay d).Valid := by
  obtain ⟨hy, hm1, hm12, hd1, hd2⟩ := h
  unfold nextDay
  split
  · show 1 ≤ d.year ∧ 1 ≤ d.month ∧ d.month ≤ 12 ∧ 1 ≤ d.day + 1 ∧
      d.day + 1 ≤ daysInMonth d.year d.month
    exact ⟨hy, hm1, hm12, by omega, by omega⟩
  · split
    · rename_i hmon
      show 1 ≤ d.year ∧ 1 ≤ d.month + 1 ∧ d.month + 1 ≤ 12 ∧ 1 ≤ 1 ∧
        1 ≤ daysInMonth d.year (d.month + 1)
      exact ⟨hy, by omega, by omega, le_refl 1, one_le_daysInMonth _ _⟩
    · show 1 ≤ d.year + 1 ∧ 1 ≤ 1 ∧ 1 ≤ 12 ∧ 1 ≤ 1 ∧ 1 ≤ daysInMonth (d.year + 1) 1
      exact ⟨by omega, le_refl 1, by norm_num, le_refl 1, one_le_daysInMonth _ _⟩

theorem isLeap_true_iff (y : Nat) :
    isLeap y = true ↔ ((y % 4 = 0 ∧ y % 100 ≠ 0) ∨ y % 400 = 0) := by
  simp [isLeap, Bool.or_eq_true, Bool.and_eq_true, beq_iff_eq, bne_iff_ne]

theorem daysBeforeMonth_one (y : Nat) : daysBeforeMonth y 1 = 0 := rfl

/-- The calendar successor advances the Gregorian ordinal by exactly one. -/
theorem toOrdinal_nextDay {d : PyDate} (h : d.Valid) :
    toOrdinal (nextDay d) = toOrdinal d + 1 := by
  obtain ⟨hy, hm1, hm12, hd1, hd2⟩ := h
  unfold nextDay
  split
  · show (d.year - 1) * 365 + (d.year - 1) / 4 - (d.year - 1) / 100 + (d.year - 1) / 400
        + daysBeforeMonth d.year d.month + (d.day + 1) = toOrdinal d + 1
    simp only [toOrdinal]
    omega
  · rename_i hday
    split
    · rename_i hmon
      have hdm : d.day = daysInMonth d.year d.month := by omega
      show (d.year - 1) * 365 + (d.year - 1) / 4 - (d.year - 1) / 100 + (d.year - 1) / 400
          + daysBeforeMonth d.year (d.month + 1) + 1 = toOrdinal d + 1
      rw [daysBeforeMonth_succ d.year d.month hm1]
      simp only [toOrdinal]
      omega
    · rename_i hmon
      have hm : d.month = 12 := by omega
      have hdim12 : daysInMonth d.year 12 = 31 := by norm_num [daysInMonth]
      rw [hm] at hd2 hday
      have hd31 : d.day = 31 := by omega
      show (d.year + 1 - 1) * 365 + (d.year + 1 - 1) / 4 - (d.year + 1 - 1) / 100
          + (d.year + 1 - 1) / 400 + daysBeforeMonth (d.year + 1) 1 + 1 = toOrdinal d + 1
      simp only [Nat.add_sub_cancel]
      have e4 : d.year / 4 = (d.year - 1) / 4 + if 4 ∣ d.year then 1 else 0 := by
        have hs := Nat.succ_div (d.year - 1) 4
        have he : d.year - 1 + 1 = d.year := by omega
        rw [he] at hs
        exact hs
      have e100 : d.year / 100 = (d.year - 1) / 100 + if 100 ∣ d.year then 1 else 0 := by
        have hs := Nat.succ_div (d.year - 1) 100
        have he : d.year - 1 + 1 = d.year := by omega
        rw [he] at hs
        exact hs
      have e400 : d.year / 400 = (d.year - 1) / 400 + if 400 ∣ d.year then 1 else 0 := by
        have hs := Nat.succ_div (d.year - 1) 400
        have he : d.year - 1 + 1 = d.year := by omega
        rw [he] at hs
        exact hs
      simp only [toOrdinal, hm, hd31, daysBeforeMonth_twelve, daysBeforeMonth_one]
      by_cases h4 : 4 ∣ d.year
      · by_cases h100 : 100 ∣ d.year
        · by_cases h400 : 400 ∣ d.year
          · have hleap : isLeap d.year = true := by
              rw [isLeap_true_iff]
              right
              omega
            have hdim2 : daysInMonth d.year 2 = 29 := by simp [daysInMonth, hleap]
            simp only [hdim2]
            simp only [if_pos h4, if_pos h100, if_pos h400] at e4 e100 e400
            omega
          · have hleap : isLeap d.year = false := by
              rw [← Bool.not_eq_true, isLeap_true_iff]
              push_neg
              refine ⟨fun hmod4 => ?_, ?_⟩ <;> omega
            have hdim2 : daysInMonth d.year 2 = 28 := by simp [daysInMonth, hleap]
            simp only [hdim2]
            simp only [if_pos h4, if_pos h100, if_neg h400] at e4 e100 e400
            omega
        · have h400 : ¬ 400 ∣ d.year := fun hc => h100 (dvd_trans (by norm_num) hc)
          have hleap : isLeap d.year = true := by
            rw [isLeap_true_iff]
            left
            omega
          have hdim2 : daysInMonth d.year 2 = 29 := by simp [daysInMonth, hleap]
          simp only [hdim2]
          simp only [if_pos h4, if_neg h100, if_neg h400] at e4 e100 e400
          omega
      · have h100 : ¬ 100 ∣ d.year := fun hc => h4 (dvd_trans (by norm_num) hc)
        have h400 : ¬ 400 ∣ d.year := fun hc => h4 (dvd_trans (by norm_num) hc)
        have hleap : isLeap d.year = false := by
          rw [← Bool.not_eq_true, isLeap_true_iff]
          push_neg
          refine ⟨fun hmod4 => ?_, ?_⟩ <;> omega
        have hdim2 : daysInMonth d.year 2 = 28 := by simp [daysInMonth, hleap]
        simp only [hdim2]
        simp only [if_neg h4, if_neg h100, if_neg h400] at e4 e100 e400
        omega

/-- Adding `n` days preserves validity and advances the ordinal by `n`. -/
theorem toOrdinal_addDays {d : PyDate} (h : d.Valid) (n : Nat) :
    (addDays d n).Valid ∧ toOrdinal (addDays d n) = toOrdinal d + n := by
  induction n with
  | zero => exact ⟨h, rfl⟩
  | succ k ih =>
    have hstep : addDays d (k + 1) = nextDay (addDays d k) :=
      Function.iterate_succ_apply' nextDay k d
    refine ⟨?_, ?_⟩
    · rw [hstep]
      exact nextDay_valid ih.1
    · rw [hstep, toOrdinal_nextDay ih.1, ih.2]
      omega

/-- A valid date whose ordinal is at most that of 9999-12-31 has its year at
most `MAXYEAR`. -/
theorem year_le_of_ordinal_le {d : PyDate} (h : d.Valid)
    (hb : toOrdinal d ≤ maxOrdinal) : d.year ≤ MAXYEAR := by
  have hM : MAXYEAR = 9999 := rfl
  have hO : maxOrdinal = 3652059 := rfl
  have hd1 : 1 ≤ d.day := h.2.2.2.1
  simp only [toOrdinal] at hb
  omega

/-- C1: the claim says `ComputeNextRun` uses the schedule's original anchor
day for the monthly rule, with `ComputeNextRun(2026-02-28, monthly,
anchorDay=31) = 2026-03-31`.  The source function takes no anchor-day
parameter at all, so the three-argument call its own caller and test perform
raises `TypeError`; and the two-argument monthly rule clamps to the CURRENT
day-of-month, giving 2026-03-28 rather than 2026-03-31 — the drift the spec
forbids. -/
theorem c1_monthly_anchor_day_missing :
    compute_next_run_call3 ⟨2026, 2, 28⟩ "monthly" 31 = .error arityErr ∧
    compute_next_run ⟨2026, 2, 28⟩ "monthly" = ⟨2026, 3, 28⟩ ∧
    compute_next_run ⟨2026, 2, 28⟩ "monthly" ≠ ⟨2026, 3, 31⟩ :=
  ⟨rfl, by decide, by decide⟩

/-- C2: the claim (with its spec source) says the first `ApplyDue` on a due
schedule creates the occurrence task exactly once and the second call is a
no-op.  Evaluating the code on a weekly schedule due on 2026-03-02: the call
raises `TypeError` in the cursor-advance loop, so the request fails, the
session rolls back, and after two calls ZERO tasks exist instead of the one
task the idempotence contract requires. -/
theorem c2_apply_due_never_creates_the_task :
    apply_due_schedules stYoga dayYoga ⟨2026, 3, 2⟩ = .error arityErr ∧
    (apply_due_run (apply_due_run stYoga dayYoga ⟨2026, 3, 2⟩)
        dayYoga ⟨2026, 3, 2⟩).tasks = [] :=
  ⟨rfl, rfl⟩

/-- C3: the claim says every processed schedule has `next_run_date` strictly
greater than the target date after the call.  Evaluating the code on a weekly
schedule due on 2026-04-06: `apply_due_schedules` raises `TypeError` before
any cursor movement, and the persisted `next_run_date` is still 2026-04-06,
not strictly greater. -/
theorem c3_cursor_not_strictly_advanced :
    apply_due_schedules stReview dayReview ⟨2026, 4, 6⟩ = .error arityErr ∧
    (apply_due_run stReview dayReview ⟨2026, 4, 6⟩).schedules.map
        Schedule.next_run_date = [⟨2026, 4, 6⟩] :=
  ⟨rfl, rfl⟩

/-- C4: the claim says an overdue schedule's cursor jumps forward past the
target date in one call.  Evaluating the code on a weekly schedule three
weeks overdue (cursor 2026-03-16, day opened 2026-04-06): the call raises
`TypeError` on the first iteration of the catch-up loop, the cursor stays at
2026-03-16 — it never jumps past the target date. -/
theorem c4_catch_up_loop_raises :
    apply_due_schedules stLaundry dayLaundry ⟨2026, 4, 6⟩ = .error arityErr ∧
    (apply_due_run stLaundry dayLaundry ⟨2026, 4, 6⟩).schedules.map
        Schedule.next_run_date = [⟨2026, 3, 16⟩] ∧
    (apply_due_run stLaundry dayLaundry ⟨2026, 4, 6⟩).tasks = [] :=
  ⟨rfl, rfl, rfl⟩

/-- C5: the claim says a schedule due exactly on a day that is marked off
creates no task while the cursor still advances strictly past the day.
Evaluating the code (day 2026-05-04 marked off, schedule due that day): no
task is created, but the cursor-advance loop raises `TypeError` and the
cursor stays at 2026-05-04 instead of advancing past it. -/
theorem c5_day_off_cursor_stuck :
    apply_due_schedules stGym dayGymOff ⟨2026, 5, 4⟩ = .error arityErr ∧
    (apply_due_run stGym dayGymOff ⟨2026, 5, 4⟩).tasks = [] ∧
    (apply_due_run stGym dayGymOff ⟨2026, 5, 4⟩).schedules.map
        Schedule.next_run_date = [⟨2026, 5, 4⟩] :=
  ⟨rfl, rfl, rfl⟩

/-- C6: the claim says a schedule whose template has no category is skipped
without raising an error while the cursor still advances.  Evaluating the
code (template without category, schedule due 2026-06-01): no task is
created, but the call raises `TypeError` — an error IS raised — and the
cursor stays at 2026-06-01. -/
theorem c6_category_missing_still_raises :
    apply_due_schedules stNoCat dayNoCat ⟨2026, 6, 1⟩ = .error arityErr ∧
    (apply_due_run stNoCat dayNoCat ⟨2026, 6, 1⟩).tasks = [] ∧
    (apply_due_run stNoCat dayNoCat ⟨2026, 6, 1⟩).schedules.map
        Schedule.next_run_date = [⟨2026, 6, 1⟩] :=
  ⟨rfl, rfl, rfl⟩

/-- Counterexample to C7 as stated: on the last representable date
9999-12-31, the weekly branch does not return the date plus 7 days — the
`timedelta` addition raises `OverflowError` (and likewise bi_weekly on a
date within 14 days of the bound). -/
theorem c7_counterexample_overflow :
    compute_next_run_py ⟨9999, 12, 31⟩ "weekly" =
      .error (.overflowError "result out of range") ∧
    compute_next_run_py ⟨9999, 12, 25⟩ "bi_weekly" =
      .error (.overflowError "result out of range") :=
  ⟨rfl, rfl⟩

/-- C7 (amended): for every valid date, the weekly branch returns the date
exactly 7 days later and the bi_weekly branch the date exactly 14 days later
(on the Gregorian ordinal, validity and the `MAXYEAR` bound preserved)
whenever the result stays at or before 9999-12-31; when it would pass that
bound the addition raises `OverflowError` instead.  In particular 2026-03-02
weekly maps to 2026-03-09. -/
theorem c7_weekly_biweekly_bounded_offsets (d : PyDate) (h : d.Valid) :
    (toOrdinal d + 7 ≤ maxOrdinal →
      ∃ r, compute_next_run_py d "weekly" = .ok r ∧
        toOrdinal r = toOrdinal d + 7 ∧ r.Valid ∧ r.year ≤ MAXYEAR) ∧
    (toOrdinal d + 14 ≤ maxOrdinal →
      ∃ r, compute_next_run_py d "bi_weekly" = .ok r ∧
        toOrdinal r = toOrdinal d + 14 ∧ r.Valid ∧ r.year ≤ MAXYEAR) ∧
    (maxOrdinal < toOrdinal d + 7 →
      compute_next_run_py d "weekly" =
        .error (.overflowError "result out of range")) ∧
    (maxOrdinal < toOrdinal d + 14 →
      compute_next_run_py d "bi_weekly" =
        .error (.overflowError "result out of range")) ∧
    compute_next_run_py ⟨2026, 3, 2⟩ "weekly" = .ok ⟨2026, 3, 9⟩ := by
  have hconc : compute_next_run_py ⟨2026, 3, 2⟩ "weekly" = .ok ⟨2026, 3, 9⟩ := rfl
  have h7 := toOrdinal_addDays h 7
  have h14 := toOrdinal_addDays h 14
  have e1 : compute_next_run_py d "weekly" = addDaysPy d 7 := by
    simp [compute_next_run_py]
  have e2 : compute_next_run_py d "bi_weekly" = addDaysPy d 14 := by
    simp [compute_next_run_py]
  refine ⟨?_, ?_, ?_, ?_, hconc⟩
  · intro hb
    refine ⟨addDays d 7, ?_, h7.2, h7.1, ?_⟩
    · rw [e1]
      unfold addDaysPy
      rw [if_pos hb]
    · exact year_le_of_ordinal_le h7.1 (by rw [h7.2]; exact hb)
  · intro hb
    refine ⟨addDays d 14, ?_, h14.2, h14.1, ?_⟩
    · rw [e2]
      unfold addDaysPy
      rw [if_pos hb]
    · exact year_le_of_ordinal_le h14.1 (by rw [h14.2]; exact hb)
  · intro hb
    rw [e1]
    unfold addDaysPy
    rw [if_neg (by omega)]
  · intro hb
    rw [e2]
    unfold addDaysPy
    rw [if_neg (by omega)]

/-- Witness for C7 (amended) at the concrete date 2026-03-02. -/
theorem c7_weekly_biweekly_bounded_offsets_witness :
    ∃ r, compute_next_run_py ⟨2026, 3, 2⟩ "weekly" = .ok r ∧
      toOrdinal r = toOrdinal ⟨2026, 3, 2⟩ + 7 ∧ r.Valid ∧ r.year ≤ MAXYEAR :=
  (c7_weekly_biweekly_bounded_offsets ⟨2026, 3, 2⟩ (by decide)).1 (by decide)

/-- C8: `create_schedule` persists a schedule whose cursor `next_run_date`
equals the anchor date, for every template id, recurrence and anchor date
(and stores the other fields unchanged). -/
theorem c8_create_schedule_initializes_cursor (template_id : Nat)
    (recurrence : String) (anchor_date : PyDate) (new_id : Nat) :
    (create_schedule template_id recurrence anchor_date new_id).next_run_date
        = anchor_date ∧
    (create_schedule template_id recurrence anchor_date new_id).anchor_date
        = anchor_date ∧
    (create_schedule template_id recurrence anchor_date new_id).template_id
        = template_id ∧
    (create_schedule template_id recurrence anchor_date new_id).recurrence
        = recurrence :=
  ⟨rfl, rfl, rfl, rfl⟩

/-- C9: `instantiate` resolves the effective category as the explicit
override when one is given, otherwise the template category, raises
`ValueError` exactly when neither is present, and on success appends one new
task carrying the resolved category. -/
theorem c9_instantiate_category_resolution (tasks : List Task)
    (template : Template) (day_id : Nat) (category_override : Option String) :
    (category_override = none → template.category = none →
      instantiate tasks template day_id category_override = .error (.valueError
        "category is required: provide it in the request or set one on the template")) ∧
    (∀ c, category_override = some c →
      ∃ task rest, instantiate tasks template day_id category_override
          = .ok (task, rest) ∧ task.category = c ∧ rest = tasks ++ [task]) ∧
    (∀ c, category_override = none → template.category = some c →
      ∃ task rest, instantiate tasks template day_id category_override
          = .ok (task, rest) ∧ task.category = c ∧ rest = tasks ++ [task]) := by
  refine ⟨?_, ?_, ?_⟩
  · rintro rfl hc
    simp [instantiate, hc]
  · rintro c rfl
    refine ⟨_, _, rfl, ?_, ?_⟩ <;> rfl
  · rintro c rfl hc
    have e : instantiate tasks template day_id none =
        .ok (⟨day_id, c, template.title, template.description, STATUS_PENDING,
            (tasks.filter (fun t => t.day_id == day_id && t.category == c)).length,
            template.tags⟩,
          tasks ++ [⟨day_id, c, template.title, template.description, STATUS_PENDING,
            (tasks.filter (fun t => t.day_id == day_id && t.category == c)).length,
            template.tags⟩]) := by
      simp [instantiate, hc]
    exact ⟨_, _, e, rfl, rfl⟩

/-- Witness for C9: a template without category and no override raises, and
an override is used verbatim. -/
theorem c9_instantiate_category_resolution_witness :
    instantiate [] tmplNoCat 5 none = .error (.valueError
      "category is required: provide it in the request or set one on the template") ∧
    ∃ task rest, instantiate [] tmplNoCat 5 (some "health") = .ok (task, rest) ∧
      task.category = "health" ∧ rest = [] ++ [task] := by
  constructor
  · exact (c9_instantiate_category_resolution [] tmplNoCat 5 none).1 rfl rfl
  · exact (c9_instantiate_category_resolution [] tmplNoCat 5
      (some "health")).2.1 "health" rfl

/-- Counterexample to C10 as stated: the fallthrough is not error-free.  On
a December-9999 date the monthly rule computes year 10000 and the `date`
constructor raises `ValueError` instead of returning a date. -/
theorem c10_counterexample_year_overflow :
    compute_next_run_py ⟨9999, 12, 15⟩ "daily" =
      .error (.valueError "year must be in 1..9999") := rfl

/-- C10 (amended): for every representable valid date (year at most
`MAXYEAR`), any recurrence value other than weekly and bi_weekly falls
through to the monthly rule; except for December-9999 inputs it returns a
valid in-range date in the immediately following calendar month whose day is
`current.day` clamped to that month's length, while for December-9999 inputs
the computed year 10000 exceeds `MAXYEAR` and the `date` constructor raises
`ValueError`. -/
theorem c10_monthly_fallthrough_bounded (d : PyDate) (r : String)
    (hv : d.Valid) (hy9 : d.year ≤ MAXYEAR)
    (h1 : r ≠ "weekly") (h2 : r ≠ "bi_weekly") :
    (¬(d.year = MAXYEAR ∧ d.month = 12) →
      ∃ res, compute_next_run_py d r = .ok res ∧ res.Valid ∧
        res.year ≤ MAXYEAR ∧ monthIndex res = monthIndex d + 1 ∧
        res.day = min d.day (daysInMonth res.year res.month)) ∧
    (d.year = MAXYEAR → d.month = 12 →
      compute_next_run_py d r =
        .error (.valueError "year must be in 1..9999")) := by
  obtain ⟨hy, hm1, hm12, hd1, hd2⟩ := hv
  have hM : MAXYEAR = 9999 := rfl
  have e : compute_next_run_py d r =
      if d.year + d.month / 12 ≤ MAXYEAR then
        .ok ⟨d.year + d.month / 12, d.month % 12 + 1,
          min d.day (daysInMonth (d.year + d.month / 12) (d.month % 12 + 1))⟩
      else .error (.valueError "year must be in 1..9999") := by
    simp [compute_next_run_py, h1, h2]
  constructor
  · intro hne
    have hok : d.year + d.month / 12 ≤ MAXYEAR := by
      rcases Nat.lt_or_ge d.month 12 with hlt | hge
      · omega
      · have hmeq : d.month = 12 := by omega
        have hyne : d.year ≠ MAXYEAR := fun hc => hne ⟨hc, hmeq⟩
        omega
    rw [e, if_pos hok]
    refine ⟨_, rfl, ⟨?_, ?_, ?_, ?_, ?_⟩, hok, ?_, rfl⟩
    · show 1 ≤ d.year + d.month / 12
      omega
    · show 1 ≤ d.month % 12 + 1
      omega
    · show d.month % 12 + 1 ≤ 12
      omega
    · show 1 ≤ min d.day (daysInMonth (d.year + d.month / 12) (d.month % 12 + 1))
      exact le_min hd1 (one_le_daysInMonth _ _)
    · show min d.day (daysInMonth (d.year + d.month / 12) (d.month % 12 + 1)) ≤
        daysInMonth (d.year + d.month / 12) (d.month % 12 + 1)
      exact min_le_right _ _
    · show (d.year + d.month / 12) * 12 + (d.month % 12 + 1) = d.year * 12 + d.month + 1
      omega
  · intro h9 h12
    rw [e, if_neg (by omega)]

/-- Witness for C10 (amended) at the unlisted recurrence value "daily" on
2026-01-31, plus the error branch exercised at 9999-12-15. -/
theorem c10_monthly_fallthrough_bounded_witness :
    (∃ res, compute_next_run_py ⟨2026, 1, 31⟩ "daily" = .ok res ∧ res.Valid ∧
      res.year ≤ MAXYEAR ∧ monthIndex res = monthIndex ⟨2026, 1, 31⟩ + 1 ∧
      res.day = min 31 (daysInMonth res.year res.month)) ∧
    compute_next_run_py ⟨9999, 12, 15⟩ "daily" =
      .error (.valueError "year must be in 1..9999") :=
  ⟨(c10_monthly_fallthrough_bounded ⟨2026, 1, 31⟩ "daily" (by decide) (by decide)
      (by decide) (by decide)).1 (by decide),
    (c10_monthly_fallthrough_bounded ⟨9999, 12, 15⟩ "daily" (by decide) (by decide)
      (by decide) (by decide)).2 rfl rfl⟩

end Oliver
